import Mathlib

/-!
Verification development for the website-builder generation backend.

The definitions below are a shallow embedding of the Python source:

  * backend/services/prompt_manager.py  (response parsing, prompt templates)
  * backend/models/ollama_client.py     (OllamaClient and its methods)
  * backend/config.py                   (configuration constants)
  * backend/routes/ollama_api.py        (HTTP route and websocket loop)

Python strings are embedded as Lean `String`; Python `str` methods
(`strip`, `split`, `lower`, `startswith`, substring `in`) are embedded as
the `py...` helpers below, which follow CPython semantics for the ASCII
inputs this code base manipulates.  Effectful methods are embedded as
pure functions that take an explicit `Server` (the observable behaviour
of the inference server during the call) and return, alongside their
result, the updated client state and the ordered list of network calls
attempted.  Python exceptions become `Except` values.  Python floats
that are only stored and passed through (temperature, timeout) are
embedded as `Int`.
-/

namespace WebsiteBuilder

/-! ## Python string primitives -/

/-- Characters stripped by Python `str.strip()` (ASCII whitespace). -/
def pyIsSpace (c : Char) : Bool :=
  c = ' ' || c = '\t' || c = '\n' || c = '\r' || c = '\x0b' || c = '\x0c'

/-- Python `s.strip()`: remove leading and trailing whitespace. -/
def pyStrip (s : String) : String :=
  ⟨((s.toList.dropWhile pyIsSpace).reverse.dropWhile pyIsSpace).reverse⟩

/-- Python `s.lower()` (ASCII). -/
def pyLower (s : String) : String :=
  ⟨s.toList.map Char.toLower⟩

/-- Occurrence test on character lists: does `sub` occur contiguously? -/
def pyFind (sub : List Char) : List Char → Bool
  | [] => sub.isEmpty
  | c :: rest => sub.isPrefixOf (c :: rest) || pyFind sub rest

/-- Python `sub in s` substring test. -/
def pyContains (s sub : String) : Bool :=
  pyFind sub.toList s.toList

/-- Core of Python `s.split(sep)` for a non-empty separator: scan left to
right, breaking at each non-overlapping occurrence of `sep`.  The `Nat`
fuel makes the recursion structural (each step consumes at least one
character, so fuel equal to the input length never runs out). -/
def pySplitAux (sep : List Char) : Nat → List Char → List Char → List (List Char)
  | _, acc, [] => [acc.reverse]
  | 0, acc, l => [acc.reverse ++ l]
  | fuel + 1, acc, c :: rest =>
    if sep.isPrefixOf (c :: rest) then
      acc.reverse :: pySplitAux sep fuel [] (List.drop (sep.length - 1) rest)
    else
      pySplitAux sep fuel (c :: acc) rest

/-- Python `s.split(sep)` for a non-empty separator. -/
def pySplit (s sep : String) : List String :=
  (pySplitAux sep.toList s.toList.length [] s.toList).map fun l => ⟨l⟩

/-- Python `s.startswith(p)`. -/
def pyStartsWith (s p : String) : Bool :=
  p.toList.isPrefixOf s.toList

/-- Python `"x".join(l)`. -/
def pyJoin (sep : String) (l : List String) : String :=
  String.intercalate sep l

/-- Python `s.rstrip(slash)` used by the client constructor. -/
def pyRStripSlashes (s : String) : String :=
  ⟨(s.toList.reverse.dropWhile (· = '/')).reverse⟩

/-- Python `s[:n]`. -/
def pyTakeChars (n : Nat) (s : String) : String :=
  ⟨s.toList.take n⟩

/-! ## Response parsing (prompt_manager.py `_extract_code` / `_parse_files`) -/

/-- The parts at odd indices of a `split("```")` result, i.e. the fenced
code blocks, in order (source: `if i % 2 == 1` in `_extract_code`). -/
def codeBlockCandidates : List String → List String
  | [] => []
  | [_] => []
  | _ :: b :: rest => b :: codeBlockCandidates rest

/-- The literal prefixes removed by `_extract_code` when no fenced block
is present (source list `prefixes`). -/
def extractCodePrefixes : List String :=
  ["Here\x27s", "Here is", "I\x27ll create", "This is"]

/-- Drop the first line and strip: the Python idiom that joins
`lines[1:]` with a newline and strips the result. -/
def dropFirstLineStrip (s : String) : String :=
  pyStrip (pyJoin "\n" ((pySplit s "\n").drop 1))

/-- The no-fence tail of `_extract_code`: remove one of the common
conversational prefixes (dropping the first line) or return unchanged. -/
def extractNoFence (r : String) : String :=
  match extractCodePrefixes.find? (fun p => pyStartsWith r p) with
  | some _ => dropFirstLineStrip r
  | none => r

/-- Embedding of `WebsitePromptManager._extract_code`. -/
def extractCode (response : String) : String :=
  let r := pyStrip response
  if pyContains r "```" then
    match (codeBlockCandidates (pySplit r "```")).find?
        (fun p => (pySplit p "\n").length > 1) with
    | some p => dropFirstLineStrip p
    | none => extractNoFence r
  else
    extractNoFence r

/-- Python dict insertion on an association list: overwrite in place,
otherwise append (insertion order preserved). -/
def dictInsert (d : List (String × String)) (k v : String) :
    List (String × String) :=
  match d with
  | [] => [(k, v)]
  | (k2, v2) :: rest =>
    if k2 = k then (k, v) :: rest else (k2, v2) :: dictInsert rest k v

/-- The indexed loop of `_parse_files`: odd parts are code blocks assigned
to the current file; even parts may switch the current file when they
mention `style.css` or `.js`. -/
def parseFilesLoop : List String → Nat → String → List (String × String) →
    List (String × String)
  | [], _, _, files => files
  | p :: rest, i, cur, files =>
    if i % 2 = 1 then
      parseFilesLoop rest (i + 1) cur (dictInsert files cur (pyStrip p))
    else if pyContains (pyLower p) "style.css" then
      parseFilesLoop rest (i + 1) "style.css" files
    else if pyContains (pyLower p) ".js" then
      parseFilesLoop rest (i + 1) "script.js" files
    else
      parseFilesLoop rest (i + 1) cur files

/-- Embedding of `WebsitePromptManager._parse_files`. -/
def parseFiles (response : String) : List (String × String) :=
  let files :=
    if pyContains (pyLower response) "index.html" then
      parseFilesLoop (pySplit response "```") 0 "index.html" []
    else []
  if files = [] then [("index.html", extractCode response)] else files

/-! ## Configuration (config.py)

Note: `config.py` defines `REQUIRED_OLLAMA_MODELS`, while
`ollama_client.py` and `routes/ollama_api.py` import the non-existent
name `SUPPORTED_OLLAMA_MODELS` from it; neither name is consulted by any
generation code path, which validates models against the live server
listing instead. -/

def OLLAMA_BASE_URL : String := "http://localhost:11434"

def REQUIRED_OLLAMA_MODELS : List String := ["gpt-oss-20b", "llama3.2:3b"]

def OLLAMA_MODEL_NAME : String := "llama3.2:3b"

/-- Source: `SHOULD_MOCK_AI_RESPONSE = True` in config.py.  No module in
the repository reads this flag. -/
def SHOULD_MOCK_AI_RESPONSE : Bool := true

/-! ## Chat messages and prompt formatting (ollama_client.py) -/

/-- One item of a multimodal content list (a dict with a `type` field in
the source; non-dict items and unrecognized types contribute nothing). -/
inductive ContentPart
  | text (s : String)
  | imageUrl
  | other
deriving DecidableEq, Repr

/-- Python message `content`: either a plain string or a list of parts. -/
inductive MsgContent
  | str (s : String)
  | parts (l : List ContentPart)
deriving DecidableEq, Repr

/-- An OpenAI-style message dict; `none` models a missing key so that the
`.get` defaults of the source apply. -/
structure ChatMessage where
  role : Option String
  content : Option MsgContent
deriving DecidableEq, Repr

/-- The placeholder substituted for image parts in
`_format_messages_for_ollama`. -/
def imagePlaceholder : String :=
  "[IMAGE: Web UI Screenshot - Analyze layout, colors, components, and structure]"

/-- Text contributed by one content part. -/
def partText : ContentPart → List String
  | .text s => [s]
  | .imageUrl => [imagePlaceholder]
  | .other => []

/-- Collapse message content to plain text (`" ".join(text_parts)`). -/
def contentText : MsgContent → String
  | .str s => s
  | .parts l => pyJoin " " (l.map partText).flatten

/-- The prompt lines contributed by one message (roles other than
system/user/assistant contribute nothing). -/
def formatMessage (m : ChatMessage) : List String :=
  let role := m.role.getD "user"
  let content := contentText (m.content.getD (.str ""))
  if role = "system" then ["System: " ++ content]
  else if role = "user" then ["User: " ++ content]
  else if role = "assistant" then ["Assistant: " ++ content]
  else []

/-- The fixed final instruction appended by `_format_messages_for_ollama`. -/
def finalInstruction : String :=
  "Assistant: I\x27ll create clean, professional web code based on the requirements. Let me generate:"

/-- Embedding of `OllamaClient._format_messages_for_ollama`. -/
def formatMessagesForOllama (messages : List ChatMessage) : String :=
  pyJoin "\n\n" ((messages.map formatMessage).flatten ++ [finalInstruction])

/-! ## Request payload (ollama_client.py `generate_streaming_response`) -/

/-- The `options` object of the `/api/generate` request body. -/
structure GenOptions where
  temperature : Int
  num_predict : Int
  stop : List String
deriving DecidableEq, Repr

/-- The `/api/generate` request body. -/
structure GenPayload where
  model : String
  prompt : String
  stream : Bool
  options : GenOptions
deriving DecidableEq, Repr

/-- The payload assembled by `generate_streaming_response`; note that the
Python expression `max_tokens or 4096` falls back to 4096 both when
`max_tokens` is `None` and when it is `0`. -/
def buildPayload (model_name prompt : String) (temperature : Int)
    (max_tokens : Option Int) : GenPayload :=
  { model := model_name
    prompt := prompt
    stream := true
    options :=
      { temperature := temperature
        num_predict :=
          match max_tokens with
          | none => 4096
          | some n => if n = 0 then 4096 else n
        stop := ["User:", "Human:"] } }

/-! ## Server behaviour model

The inference server is modelled by the observable behaviour of its three
endpoints during one client call: the liveness probe, the model listing,
and the (streamed) generate endpoint. -/

/-- Outcome of `GET /api/tags` as seen by `list_models`. -/
inductive TagsReply
  | ok (models : List String)
  | httpStatus (code : Nat)
  | netError (msg : String)
deriving DecidableEq, Repr

/-- One newline-delimited line of the streaming generate response:
whitespace-only, undecodable JSON, or a decoded object with optional
`error` and `response` fields and a `done` flag. -/
inductive GenLine
  | blank
  | malformed
  | obj (error : Option String) (response : Option String) (done : Bool)
deriving DecidableEq, Repr

/-- Outcome of `POST /api/generate` as seen by the client. -/
inductive GenReply
  | stream (status : Nat) (body : String) (lines : List GenLine)
  | timeout
  | netError (msg : String)
deriving DecidableEq, Repr

/-- Observable server behaviour during one client call. -/
structure Server where
  reachable : Bool
  tags : TagsReply
  gen : GenReply
deriving DecidableEq, Repr

/-- A network call attempted by the client, in order. -/
inductive NetCall
  | version
  | tags
  | generate (payload : GenPayload)
deriving DecidableEq, Repr

/-- The exception taxonomy of ollama_client.py:
`OllamaConnectionError` and `OllamaModelError`, each carrying `str(e)`. -/
inductive OllamaError
  | connection (msg : String)
  | model (msg : String)
deriving DecidableEq, Repr

/-- The `str(e)` of an embedded exception. -/
def errMessage : OllamaError → String
  | .connection m => m
  | .model m => m

/-! ## OllamaClient -/

/-- State of an `OllamaClient` instance: the fields assigned by
`__init__` (`self.base_url`, `self.timeout`, `self.model_name`,
`self._available_models`). -/
structure OllamaClient where
  base_url : String
  timeout : Int
  model_name : String
  available_models : Option (List String)
deriving DecidableEq, Repr

/-- Embedding of `OllamaClient.__init__`: it only assigns fields (there
is no validation of `base_url` and no raise path). -/
def OllamaClient.init (base_url : String) (timeout : Int) : OllamaClient :=
  { base_url := pyRStripSlashes base_url
    timeout := timeout
    model_name := OLLAMA_MODEL_NAME
    available_models := none }

/-- Embedding of `OllamaClient.check_connection`: probe `/api/version`,
returning `False` on any failure; always one network call. -/
def OllamaClient.check_connection (_c : OllamaClient) (srv : Server) :
    Bool × List NetCall :=
  (srv.reachable, [NetCall.version])

/-- Embedding of `OllamaClient.list_models`: fetch `/api/tags`; on 200
cache and return the names, otherwise raise `OllamaConnectionError`. -/
def OllamaClient.list_models (c : OllamaClient) (srv : Server) :
    Except OllamaError (List String) × OllamaClient × List NetCall :=
  match srv.tags with
  | .ok models =>
      (.ok models, { c with available_models := some models }, [NetCall.tags])
  | .httpStatus code =>
      (.error (.connection ("Failed to list models: " ++ toString code)), c,
        [NetCall.tags])
  | .netError msg =>
      (.error (.connection ("Cannot connect to Ollama server: " ++ msg)), c,
        [NetCall.tags])

/-- Python truthiness of `self._available_models` (`None` and `[]` are
falsy). -/
def optListFalsy : Option (List String) → Bool
  | none => true
  | some [] => true
  | some (_ :: _) => false

/-- The `OllamaModelError` message built by `ensure_model_available`. -/
def modelNotFoundMsg (model_name : String) (available : List String) : String :=
  let available_str := if available = [] then "none" else pyJoin ", " available
  "\nModel \x27" ++ model_name ++ "\x27 not found in Ollama.\nAvailable models: "
    ++ available_str
    ++ "\n\nTo install the model, run:\n    ollama pull " ++ model_name
    ++ "\n\nFor the recommended models in this project, run:\n    ollama pull llama3.1:3b\n    ollama pull gpt-20b  # if available\n"

/-- The membership test at the end of `ensure_model_available`, performed
on the (possibly just refreshed) cached listing. -/
def ensureFinish (c : OllamaClient) (model_name : String)
    (calls : List NetCall) :
    Except OllamaError Bool × OllamaClient × List NetCall :=
  let avail := c.available_models.getD []
  if model_name ∈ avail then (.ok true, c, calls)
  else (.error (.model (modelNotFoundMsg model_name avail)), c, calls)

/-- Embedding of `OllamaClient.ensure_model_available`: refresh the
listing only when the cache is falsy, then test membership in the cached
listing. -/
def OllamaClient.ensure_model_available (c : OllamaClient) (srv : Server)
    (model_name : String) :
    Except OllamaError Bool × OllamaClient × List NetCall :=
  if optListFalsy c.available_models then
    match c.list_models srv with
    | (.error e, c2, calls) => (.error e, c2, calls)
    | (.ok _, c2, calls) => ensureFinish c2 model_name calls
  else
    ensureFinish c model_name []

/-! ## Streaming generation (ollama_client.py) -/

/-- Python truthiness of `data.get("error")` (`None` and `""` are falsy). -/
def optStrTruthy : Option String → Bool
  | none => false
  | some s => s ≠ ""

/-- The increments yielded for one decoded line: the `response` field
when present and non-empty (`if chunk: yield chunk`), else nothing. -/
def lineChunk (resp : Option String) : List String :=
  match resp with
  | some s => if s = "" then [] else [s]
  | none => []

/-- The line loop of `generate_streaming_response`: skip blank and
undecodable lines, raise on a truthy `error` field, yield each non-empty
`response` field, and stop at the first line with `done: true`. -/
def processLines : List GenLine → Except OllamaError (List String)
  | [] => .ok []
  | .blank :: rest => processLines rest
  | .malformed :: rest => processLines rest
  | .obj err resp done :: rest =>
    if optStrTruthy err then
      .error (.connection ("Ollama error: " ++ err.getD ""))
    else if done then
      .ok (lineChunk resp)
    else
      match processLines rest with
      | .ok more => .ok (lineChunk resp ++ more)
      | .error e => .error e

/-- Python `if not model_name: model_name = OLLAMA_MODEL_NAME` (both
`None` and `""` are replaced by the default). -/
def effectiveModelName : Option String → String
  | none => OLLAMA_MODEL_NAME
  | some s => if s = "" then OLLAMA_MODEL_NAME else s

/-- The `OllamaConnectionError` message raised when the liveness probe
fails. -/
def connectErrorMsg (base_url : String) : String :=
  "Cannot connect to Ollama server. Please ensure Ollama is running on "
    ++ base_url ++ ". Start with: ollama serve"

/-- Outcome of the `POST /api/generate` stage given the server reply. -/
def streamChunksFromReply (reply : GenReply) (model : String) :
    Except OllamaError (List String) :=
  match reply with
  | .timeout =>
      .error (.connection ("Timeout waiting for response from " ++ model
        ++ ". This might indicate the model is too large for your system or needs more time."))
  | .netError msg =>
      .error (.connection ("Network error communicating with Ollama: " ++ msg))
  | .stream status body lines =>
      if status ≠ 200 then
        .error (.connection ("Ollama API error " ++ toString status ++ ": " ++ body))
      else
        processLines lines

/-- Embedding of `OllamaClient.generate_streaming_response`.  The result
is the list of yielded increments (or the raised error), the updated
client state, and the ordered network calls attempted: the liveness
probe, then possibly the tags listing, then — only after validation
passed — the generate request itself. -/
def OllamaClient.generate_streaming_response (c : OllamaClient) (srv : Server)
    (messages : List ChatMessage) (model_name : Option String)
    (temperature : Int) (max_tokens : Option Int) :
    Except OllamaError (List String) × OllamaClient × List NetCall :=
  if (c.check_connection srv).1 = false then
    (.error (.connection (connectErrorMsg c.base_url)), c,
      (c.check_connection srv).2)
  else
    match c.ensure_model_available srv (effectiveModelName model_name) with
    | (.error e, c2, tagCalls) =>
        (.error e, c2, (c.check_connection srv).2 ++ tagCalls)
    | (.ok _, c2, tagCalls) =>
        match streamChunksFromReply srv.gen (effectiveModelName model_name) with
        | .ok chunks =>
            (.ok chunks, c2, (c.check_connection srv).2 ++ tagCalls ++
              [NetCall.generate (buildPayload (effectiveModelName model_name)
                (formatMessagesForOllama messages) temperature max_tokens)])
        | .error e =>
            (.error e, c2, (c.check_connection srv).2 ++ tagCalls ++
              [NetCall.generate (buildPayload (effectiveModelName model_name)
                (formatMessagesForOllama messages) temperature max_tokens)])

/-- The runtime value built by `Completion(content=full_response)` in
`generate_completion` (a dict with a single `content` key). -/
structure Completion where
  content : String
deriving DecidableEq, Repr

/-- Embedding of `OllamaClient.generate_completion`: drain the stream,
accumulating `full_response += chunk` in order. -/
def OllamaClient.generate_completion (c : OllamaClient) (srv : Server)
    (messages : List ChatMessage) (model_name : Option String)
    (temperature : Int) (max_tokens : Option Int) :
    Except OllamaError Completion × OllamaClient × List NetCall :=
  match c.generate_streaming_response srv messages model_name temperature max_tokens with
  | (.ok chunks, c2, calls) =>
      (.ok { content := chunks.foldl (fun acc ch => acc ++ ch) "" }, c2, calls)
  | (.error e, c2, calls) => (.error e, c2, calls)

/-- Embedding of `OllamaClient.generate_stream`: wrap a plain prompt
(and optional truthy system prompt) into messages and delegate. -/
def OllamaClient.generate_stream (c : OllamaClient) (srv : Server)
    (prompt : String) (model : Option String) (system_prompt : Option String)
    (temperature : Int) (max_tokens : Option Int) :
    Except OllamaError (List String) × OllamaClient × List NetCall :=
  let messages :=
    (match system_prompt with
     | some sp =>
        if sp = "" then []
        else [{ role := some "system", content := some (.str sp) : ChatMessage }]
     | none => []) ++
    [{ role := some "user", content := some (.str prompt) : ChatMessage }]
  c.generate_streaming_response srv messages model temperature max_tokens

/-! ## Prompt templates and the prompt manager (prompt_manager.py) -/

def HTML_SYSTEM : String :=
  "You are a web developer. Create clean, modern HTML with embedded CSS. Use semantic HTML5 and responsive design."

def CSS_SYSTEM : String :=
  "You are a CSS expert. Create modern, responsive styles using Flexbox/Grid. Focus on clean design and good UX."

def REACT_SYSTEM : String :=
  "You are a React developer. Create functional components with hooks. Use TypeScript and modern practices."

/-- Embedding of `WebsitePromptTemplate.html_prompt`. -/
def html_prompt (description requirements : String) : String :=
  let req_text := if requirements = "" then "" else "\nAdditional: " ++ requirements
  "Create a complete HTML page: " ++ description ++ req_text
    ++ "\n\nRequirements:\n- Complete HTML with embedded CSS\n- Responsive design\n- Modern styling\n- Semantic HTML5\n\nReturn only the HTML code:"

/-- Embedding of `WebsitePromptTemplate.css_prompt`. -/
def css_prompt (description html : String) : String :=
  let html_text :=
    if html = "" then "" else "\nHTML context: " ++ pyTakeChars 200 html ++ "..."
  "Create CSS for: " ++ description ++ html_text
    ++ "\n\nRequirements:\n- Modern responsive CSS\n- Flexbox/Grid layouts\n- Good color scheme\n- Mobile-first\n\nReturn only CSS code:"

/-- Embedding of `WebsitePromptTemplate.react_prompt` (`props` defaults
to `None`; `None` and `[]` are both falsy). -/
def react_prompt (description : String) (props : Option (List String)) : String :=
  let props_text :=
    match props with
    | some (p :: ps) => "\nProps: " ++ pyJoin ", " (p :: ps)
    | _ => ""
  "Create React component: " ++ description ++ props_text
    ++ "\n\nRequirements:\n- Functional component with hooks\n- TypeScript\n- Modern JSX\n- Good styling\n\nReturn only the component code:"

/-- Embedding of `WebsitePromptTemplate.enhance_prompt`. -/
def enhance_prompt (code request : String) : String :=
  "Enhance this code: " ++ request ++ "\n\nCode:\n" ++ code
    ++ "\n\nReturn only the improved code:"

/-- Embedding of `WebsitePromptTemplate.fix_prompt`. -/
def fix_prompt (code issues : String) : String :=
  "Fix these issues: " ++ issues ++ "\n\nCode:\n" ++ code
    ++ "\n\nReturn only the fixed code:"

/-- Accumulate a drained stream and post-process with `_extract_code`,
as every single-artifact manager method does. -/
def drainedExtract (r : Except OllamaError (List String) × OllamaClient × List NetCall) :
    Except OllamaError String × OllamaClient × List NetCall :=
  match r with
  | (.ok chunks, c2, calls) =>
      (.ok (extractCode (chunks.foldl (fun acc ch => acc ++ ch) "")), c2, calls)
  | (.error e, c2, calls) => (.error e, c2, calls)

/-- Embedding of `WebsitePromptManager.generate_html_page`. -/
def WebsitePromptManager.generate_html_page (c : OllamaClient) (srv : Server)
    (description additional_requirements : String) (model_name : Option String) :
    Except OllamaError String × OllamaClient × List NetCall :=
  drainedExtract (c.generate_stream srv
    (html_prompt description additional_requirements) model_name
    (some HTML_SYSTEM) 0 none)

/-- Embedding of `WebsitePromptManager.generate_css_styles`. -/
def WebsitePromptManager.generate_css_styles (c : OllamaClient) (srv : Server)
    (mockup_description existing_html : String) (model_name : Option String) :
    Except OllamaError String × OllamaClient × List NetCall :=
  drainedExtract (c.generate_stream srv
    (css_prompt mockup_description existing_html) model_name
    (some CSS_SYSTEM) 0 none)

/-- Embedding of `WebsitePromptManager.generate_react_component`. -/
def WebsitePromptManager.generate_react_component (c : OllamaClient) (srv : Server)
    (component_description : String) (props : Option (List String))
    (model_name : Option String) :
    Except OllamaError String × OllamaClient × List NetCall :=
  drainedExtract (c.generate_stream srv
    (react_prompt component_description props) model_name
    (some REACT_SYSTEM) 0 none)

/-- Embedding of `WebsitePromptManager.enhance_existing_code` (no system
prompt is passed). -/
def WebsitePromptManager.enhance_existing_code (c : OllamaClient) (srv : Server)
    (existing_code enhancement_request : String) (model_name : Option String) :
    Except OllamaError String × OllamaClient × List NetCall :=
  drainedExtract (c.generate_stream srv
    (enhance_prompt existing_code enhancement_request) model_name none 0 none)

/-- Embedding of `WebsitePromptManager.fix_code_issues` (no system
prompt is passed). -/
def WebsitePromptManager.fix_code_issues (c : OllamaClient) (srv : Server)
    (problematic_code issues_description : String) (model_name : Option String) :
    Except OllamaError String × OllamaClient × List NetCall :=
  drainedExtract (c.generate_stream srv
    (fix_prompt problematic_code issues_description) model_name none 0 none)

/-! ## HTTP route (routes/ollama_api.py `generate_html_page`) -/

/-- The typed HTTP failure of the route layer: `OllamaConnectionError`
and `OllamaModelError` become 503, anything else 500. -/
inductive ApiFailure
  | serviceUnavailable (detail : String)
  | internalError (detail : String)
deriving DecidableEq, Repr

/-- Embedding of the `POST /generate/html` route handler: delegate to the
prompt manager and wrap the result as `{"html": html_code}` or an HTTP
error.  Nothing in this path consults `SHOULD_MOCK_AI_RESPONSE`. -/
def routeGenerateHtml (c : OllamaClient) (srv : Server)
    (description additional_requirements : String) (model_name : Option String) :
    Except ApiFailure (List (String × String)) × OllamaClient × List NetCall :=
  match WebsitePromptManager.generate_html_page c srv description
      additional_requirements model_name with
  | (.ok html_code, c2, calls) => (.ok [("html", html_code)], c2, calls)
  | (.error e, c2, calls) =>
      (.error (.serviceUnavailable ("Ollama service error: " ++ errMessage e)),
        c2, calls)

/-! ## Websocket multiplexer (routes/ollama_api.py) -/

/-- A typed request received on the `/generate/stream` websocket;
`unknown` models any unrecognized `type` discriminant. -/
inductive WsRequest
  | html (description additional_requirements : String) (model_name : Option String)
  | css (mockup_description existing_html : String) (model_name : Option String)
  | react (component_description : String) (props : List String)
      (model_name : Option String)
  | enhance (existing_code enhancement_request : String) (model_name : Option String)
  | fix (problematic_code issues_description : String) (model_name : Option String)
  | unknown (request_type : String)
deriving DecidableEq, Repr

/-- An outbound JSON event frame of the websocket protocol. -/
inductive WsEvent
  | status (message : String)
  | complete (data : List (String × String))
  | error (message : String)
deriving DecidableEq, Repr

/-- Terminal events: `complete` and `error`. -/
def WsEvent.isTerminal : WsEvent → Bool
  | .status _ => false
  | .complete _ => true
  | .error _ => true

/-- Shared shape of the five `_stream_*` helpers: a status event, the
manager call, then exactly one `complete` (keyed artifact) or `error`
event built from `str(e)`. -/
def streamHelper (statusMsg failMsg key : String)
    (r : Except OllamaError String × OllamaClient × List NetCall) :
    List WsEvent × OllamaClient :=
  match r with
  | (.ok code, c2, _) => ([.status statusMsg, .complete [(key, code)]], c2)
  | (.error e, c2, _) =>
      ([.status statusMsg, .error (failMsg ++ errMessage e)], c2)

/-- Dispatch of one received request, as in `websocket_generate_stream`
and the `_stream_*` helpers (in the embedding every `send_json`
succeeds, so the outer exception handler of the loop is never reached). -/
def handleWsRequest (c : OllamaClient) (srv : Server) :
    WsRequest → List WsEvent × OllamaClient
  | .html d a m =>
      streamHelper "Generating HTML..." "HTML generation failed: " "html"
        (WebsitePromptManager.generate_html_page c srv d a m)
  | .css d e m =>
      streamHelper "Generating CSS..." "CSS generation failed: " "css"
        (WebsitePromptManager.generate_css_styles c srv d e m)
  | .react d props m =>
      streamHelper "Generating React component..." "React generation failed: " "react"
        (WebsitePromptManager.generate_react_component c srv d (some props) m)
  | .enhance ex req m =>
      streamHelper "Enhancing code..." "Code enhancement failed: " "enhanced_code"
        (WebsitePromptManager.enhance_existing_code c srv ex req m)
  | .fix code issues m =>
      streamHelper "Fixing code issues..." "Code fixing failed: " "fixed_code"
        (WebsitePromptManager.fix_code_issues c srv code issues m)
  | .unknown t => ([.error ("Unknown request type: " ++ t)], c)

/-- The `while True` connection loop: handle each received request in
order, threading the shared client singleton through; the per-request
event lists are kept separate. -/
def websocketLoop (c : OllamaClient) :
    List (WsRequest × Server) → List (List WsEvent)
  | [] => []
  | (req, srv) :: rest =>
    let r := handleWsRequest c srv req
    r.1 :: websocketLoop r.2 rest

/-- The payloads among a list of attempted network calls. -/
def generatedPayloads (calls : List NetCall) : List GenPayload :=
  calls.filterMap fun call =>
    match call with
    | .generate p => some p
    | _ => none

/-! ## Spec-side predicate for the loopback claim -/

/-- Modelled from the spec: a base URL is loopback when it addresses
`localhost` or `127.0.0.1`.  This predicate exists only to state the
security-invariant claim; the source constructor contains no such
check. -/
def isLoopbackBaseUrl (url : String) : Bool :=
  pyContains url "localhost" || pyContains url "127.0.0.1"

deriving instance DecidableEq for Except

/-! ## Concrete fixtures used by witnesses and counterexamples -/

/-- A client fresh out of `__init__` with the configured base URL. -/
def clientFresh : OllamaClient := OllamaClient.init OLLAMA_BASE_URL 300

/-- A reachable server hosting only the model `m-x` (a name outside
`REQUIRED_OLLAMA_MODELS`) whose generate stream yields one chunk. -/
def srvOneChunk : Server :=
  { reachable := true
    tags := .ok ["m-x"]
    gen := .stream 200 "" [.obj none (some "ok") true] }

/-- An unreachable server. -/
def srvDown : Server :=
  { reachable := false, tags := .netError "down", gen := .netError "down" }

/-- A reachable server listing only `modelA`. -/
def srvListedA : Server :=
  { reachable := true, tags := .ok ["modelA"], gen := .netError "n/a" }

/-- The same server after its listing changed to `modelB` only. -/
def srvListedB : Server :=
  { reachable := true, tags := .ok ["modelB"], gen := .netError "n/a" }

/-- The client after one availability check against `srvListedA`, which
cached the listing `["modelA"]`. -/
def clientCachedA : OllamaClient :=
  (clientFresh.ensure_model_available srvListedA "modelA").2.1

/-- A raw completion carrying a fenced html-tagged block and a fenced
css-tagged block and nothing else (counterexample input for the
language-tag parsing claim). -/
def taggedBlocksText : String :=
  "```html\n<p>hi</p>\n```\n\n```css\nbody color red\n```"

/-- A raw completion with no fenced block that starts with one of the
conversational prefixes stripped by `_extract_code`. -/
def prefixedPlainText : String := "Here is\nhello"

/-- A raw completion in the multi-file format the parser actually
recognizes: filename hints followed by fenced blocks. -/
def multiFileText : String :=
  "here is INDEX.HTML:\n```html\n<p>a</p>\n```\nnow style.css:\n```css\nbody x\n```"

/-- The payload sent for a call passing `max_tokens = 0`. -/
def payloadZero : GenPayload :=
  buildPayload "m-x" (formatMessagesForOllama []) 0 (some 0)

/-- The payload sent for a call passing `max_tokens = 7`. -/
def payloadSeven : GenPayload :=
  buildPayload "m-x" (formatMessagesForOllama []) 0 (some 7)

/-! ## Theorems -/

/-- C4 counterexample: on a text containing exactly one fenced
html-tagged block and one fenced css-tagged block, `_parse_files` does
not return both artifacts keyed by language tag: it falls back to a
single `index.html` artifact holding the first block only, and the css
block content appears nowhere in the result. -/
theorem parse_files_ignores_language_tags :
    parseFiles taggedBlocksText = [("index.html", "<p>hi</p>")]
      ∧ ((parseFiles taggedBlocksText).map Prod.snd).contains "body color red" = false := by
  decide

/-- C4 (amended): the multi-file parser keys artifacts by filename hints,
not language tags.  For a raw text that splits on fences into a preamble
mentioning `index.html` (and no other hint), a first block, an
interlude mentioning `style.css`, a second block, and a tail,
`_parse_files` returns exactly the two artifacts `index.html` and
`style.css`, each the corresponding block trimmed of surrounding
whitespace (language tag lines are retained). -/
theorem parse_files_two_hinted_blocks
    (r pre1 blk1 mid blk2 last : String)
    (hsplit : pySplit r "```" = [pre1, blk1, mid, blk2, last])
    (hidx : pyContains (pyLower r) "index.html" = true)
    (hpre1 : pyContains (pyLower pre1) "style.css" = false)
    (hpre2 : pyContains (pyLower pre1) ".js" = false)
    (hmid : pyContains (pyLower mid) "style.css" = true) :
    parseFiles r = [("index.html", pyStrip blk1), ("style.css", pyStrip blk2)] := by
  simp [parseFiles, hsplit, hidx, parseFilesLoop, hpre1, hpre2, hmid, dictInsert]

/-- Witness for the amended C4 theorem at a concrete multi-file text. -/
theorem parse_files_two_hinted_blocks_witness :
    parseFiles multiFileText
      = [("index.html", pyStrip "html\n<p>a</p>\n"), ("style.css", pyStrip "css\nbody x\n")] :=
  parse_files_two_hinted_blocks multiFileText
    "here is INDEX.HTML:\n" "html\n<p>a</p>\n" "\nnow style.css:\n" "css\nbody x\n" ""
    (by decide) (by decide) (by decide) (by decide) (by decide)

/-- C5 counterexample: for the non-empty fence-free text
`"Here is\nhello"`, `_parse_files` does not return the entire text as
the primary artifact: the first line is stripped. -/
theorem parse_files_no_fence_drops_prefix_line :
    parseFiles prefixedPlainText = [("index.html", "hello")]
      ∧ ((parseFiles prefixedPlainText).map Prod.snd).contains prefixedPlainText = false := by
  decide

/-- C5 (amended): for a non-empty raw text with no fenced blocks,
`_parse_files` never fails and returns exactly one artifact,
`index.html`, holding the stripped text run through the conversational
prefix removal of `_extract_code`; when the stripped text starts with
none of those prefixes the artifact is exactly the stripped text.  No
other artifact key (empty or otherwise) is produced. -/
theorem parse_files_no_fence
    (r : String) (_hr : r ≠ "")
    (hsplit : pySplit r "```" = [r])
    (hstrip : pyContains (pyStrip r) "```" = false) :
    parseFiles r = [("index.html", extractNoFence (pyStrip r))]
      ∧ (extractCodePrefixes.find? (fun p => pyStartsWith (pyStrip r) p) = none →
          parseFiles r = [("index.html", pyStrip r)]) := by
  have hext : extractCode r = extractNoFence (pyStrip r) := by
    simp [extractCode, hstrip]
  have hmain : parseFiles r = [("index.html", extractNoFence (pyStrip r))] := by
    by_cases hidx : pyContains (pyLower r) "index.html" = true
    · simp only [parseFiles, hidx, if_true, hsplit]
      have hloop : parseFilesLoop [r] 0 "index.html" [] = [] := by
        simp only [parseFilesLoop, Nat.zero_mod]
        norm_num
      simp [hloop, hext]
    · simp only [parseFiles, Bool.not_eq_true] at hidx ⊢
      simp [hidx, hext]
  refine ⟨hmain, fun hfind => ?_⟩
  rw [hmain]
  simp [extractNoFence, hfind]

/-- Witness for the amended C5 theorem at a concrete fence-free text. -/
theorem parse_files_no_fence_witness :
    parseFiles "hello world" = [("index.html", "hello world")] :=
  (parse_files_no_fence "hello world" (by decide) (by decide) (by decide)).2
    (by decide)

/-- C2: evaluating `__init__` at a non-loopback base URL: the
constructor performs no validation and produces a client for it (the
source has no raise path), contradicting the loopback security
invariant of the specification. -/
theorem init_accepts_non_loopback_base_url :
    isLoopbackBaseUrl "http://evil.example.com:11434" = false
      ∧ OllamaClient.init "http://evil.example.com:11434" 300
          = { base_url := "http://evil.example.com:11434", timeout := 300,
              model_name := OLLAMA_MODEL_NAME, available_models := none } := by
  decide

/-- C3: with `SHOULD_MOCK_AI_RESPONSE` set (it is `True` in config.py),
the html generation route still runs the full pipeline: against an
unreachable server it attempts the liveness probe (a network call) and
returns a 503 error instead of a canned artifact pair — no code path
consults the flag. -/
theorem mock_flag_never_consulted :
    SHOULD_MOCK_AI_RESPONSE = true
      ∧ (routeGenerateHtml clientFresh srvDown "a landing page for a bakery" "" none).2.2
          = [NetCall.version]
      ∧ (routeGenerateHtml clientFresh srvDown "a landing page for a bakery" "" none).1
          = .error (.serviceUnavailable
              ("Ollama service error: " ++ connectErrorMsg "http://localhost:11434")) := by
  decide

/-- When the cached listing is non-empty, `ensure_model_available` issues
no network call and tests membership in the cache. -/
theorem ensure_model_available_cached (c : OllamaClient) (srv : Server)
    (name : String) (mods : List String)
    (hc : c.available_models = some mods) (hne : mods ≠ []) :
    c.ensure_model_available srv name
      = (if name ∈ mods then .ok true
         else .error (.model (modelNotFoundMsg name mods)), c, []) := by
  obtain ⟨m, ms, rfl⟩ : ∃ m ms, mods = m :: ms := by
    cases mods with
    | nil => exact absurd rfl hne
    | cons m ms => exact ⟨m, ms, rfl⟩
  simp only [OllamaClient.ensure_model_available, hc, optListFalsy,
    Bool.false_eq_true, if_false, ensureFinish, Option.getD_some]
  split <;> rfl

/-- When the cache is falsy, `ensure_model_available` fetches the live
listing, caches it, and tests membership in the fetched listing. -/
theorem ensure_model_available_fetch (c : OllamaClient) (srv : Server)
    (name : String) (mods : List String)
    (hc : optListFalsy c.available_models = true)
    (htags : srv.tags = .ok mods) :
    c.ensure_model_available srv name
      = (if name ∈ mods then .ok true
         else .error (.model (modelNotFoundMsg name mods)),
         { c with available_models := some mods }, [NetCall.tags]) := by
  simp only [OllamaClient.ensure_model_available, hc, if_true,
    OllamaClient.list_models, htags, ensureFinish, Option.getD_some]
  split <;> rfl

/-- C1 counterexample: `m-x` is not in the `REQUIRED_OLLAMA_MODELS`
allow-list, yet a generation request for it raises nothing: it attempts
three network calls (liveness probe, model listing, generate) and
succeeds, because the client validates the model only against the live
server listing. -/
theorem generate_accepts_model_outside_allow_list :
    REQUIRED_OLLAMA_MODELS.contains "m-x" = false
      ∧ (clientFresh.generate_streaming_response srvOneChunk [] (some "m-x") 0 none).1
          = .ok ["ok"]
      ∧ (clientFresh.generate_streaming_response srvOneChunk [] (some "m-x") 0 none).2.2
          = [NetCall.version, NetCall.tags,
             NetCall.generate (buildPayload "m-x" (formatMessagesForOllama []) 0 none)] := by
  decide

/-- C1 (amended): model validation happens against the live server
listing, after the liveness probe and the tags listing (both network
calls): for a fresh client and a reachable server whose listing does not
contain the requested model, `generate_streaming_response` raises
`OllamaModelError` naming the available models, and the generate
endpoint is never called. -/
theorem generate_rejects_model_missing_from_listing
    (c : OllamaClient) (srv : Server) (messages : List ChatMessage)
    (temperature : Int) (max_tokens : Option Int) (m : String) (mods : List String)
    (hm : m ≠ "") (hcache : c.available_models = none)
    (hreach : srv.reachable = true) (htags : srv.tags = .ok mods)
    (hnot : m ∉ mods) :
    c.generate_streaming_response srv messages (some m) temperature max_tokens
      = (.error (.model (modelNotFoundMsg m mods)),
         { c with available_models := some mods },
         [NetCall.version, NetCall.tags]) := by
  have heff : effectiveModelName (some m) = m := by
    simp [effectiveModelName, hm]
  have hfal : optListFalsy c.available_models = true := by rw [hcache]; rfl
  have hens := ensure_model_available_fetch c srv m mods hfal htags
  rw [if_neg hnot] at hens
  simp [OllamaClient.generate_streaming_response, OllamaClient.check_connection,
    hreach, heff, hens]

/-- Witness for the amended C1 theorem at a concrete model and server. -/
theorem generate_rejects_model_missing_witness :
    clientFresh.generate_streaming_response srvListedA [] (some "nope") 0 none
      = (.error (.model (modelNotFoundMsg "nope" ["modelA"])),
         { clientFresh with available_models := some ["modelA"] },
         [NetCall.version, NetCall.tags]) :=
  generate_rejects_model_missing_from_listing clientFresh srvListedA [] 0 none
    "nope" ["modelA"] (by decide) rfl rfl rfl (by decide)

/-- C7 counterexample: after a first availability check cached the
listing `["modelA"]`, a second check against a server whose listing has
changed to `["modelB"]` still reports `modelA` available and issues no
network call: the changed listing is not observed. -/
theorem stale_cache_second_check :
    clientCachedA.available_models = some ["modelA"]
      ∧ srvListedB.tags = .ok ["modelB"]
      ∧ (["modelB"] : List String).contains "modelA" = false
      ∧ clientCachedA.ensure_model_available srvListedB "modelA"
          = (.ok true, clientCachedA, []) := by
  decide

/-- C7 (amended): `list_models` re-queries the server on every call and
returns its current listing, but `ensure_model_available` consults the
cached `_available_models` once a non-empty listing has been cached,
issuing no network call, so consecutive availability checks do not
observe listing changes. -/
theorem model_listing_cache_behaviour
    (c : OllamaClient) (srv : Server) (name : String) (mods mods2 : List String)
    (hc : c.available_models = some mods) (hne : mods ≠ [])
    (htags : srv.tags = .ok mods2) :
    c.ensure_model_available srv name
        = (if name ∈ mods then .ok true
           else .error (.model (modelNotFoundMsg name mods)), c, [])
      ∧ c.list_models srv
          = (.ok mods2, { c with available_models := some mods2 }, [NetCall.tags]) := by
  refine ⟨ensure_model_available_cached c srv name mods hc hne, ?_⟩
  simp [OllamaClient.list_models, htags]

/-- Witness for the amended C7 theorem at a concrete cached client and a
changed server listing. -/
theorem model_listing_cache_behaviour_witness :
    clientCachedA.ensure_model_available srvListedB "modelA"
        = (if "modelA" ∈ (["modelA"] : List String) then .ok true
           else .error (.model (modelNotFoundMsg "modelA" ["modelA"])),
           clientCachedA, [])
      ∧ clientCachedA.list_models srvListedB
          = (.ok ["modelB"],
             { clientCachedA with available_models := some ["modelB"] },
             [NetCall.tags]) :=
  model_listing_cache_behaviour clientCachedA srvListedB "modelA"
    ["modelA"] ["modelB"] (by decide) (by decide) (by decide)

/-- C8: `generate_completion` fully drains the stream: it returns a
`Completion` whose `content` is the in-order concatenation of every
increment yielded by `generate_streaming_response` on the same
arguments, and it fails exactly when the streaming call fails, with the
identical error. -/
theorem generate_completion_drains_stream
    (c : OllamaClient) (srv : Server) (messages : List ChatMessage)
    (model_name : Option String) (temperature : Int) (max_tokens : Option Int) :
    (∀ chunks c2 calls,
        c.generate_streaming_response srv messages model_name temperature max_tokens
          = (.ok chunks, c2, calls) →
        c.generate_completion srv messages model_name temperature max_tokens
          = (.ok { content := String.join chunks }, c2, calls))
      ∧ (∀ e c2 calls,
          c.generate_streaming_response srv messages model_name temperature max_tokens
            = (.error e, c2, calls) →
          c.generate_completion srv messages model_name temperature max_tokens
            = (.error e, c2, calls)) := by
  constructor
  · intro chunks c2 calls h
    simp [OllamaClient.generate_completion, h, String.join]
  · intro e c2 calls h
    simp [OllamaClient.generate_completion, h]

/-- Witness for the C8 theorem at a concrete one-chunk stream. -/
theorem generate_completion_drains_stream_witness :
    clientFresh.generate_completion srvOneChunk [] (some "m-x") 0 none
      = (.ok { content := String.join ["ok"] },
         { clientFresh with available_models := some ["m-x"] },
         [NetCall.version, NetCall.tags,
          NetCall.generate (buildPayload "m-x" (formatMessagesForOllama []) 0 none)]) :=
  (generate_completion_drains_stream clientFresh srvOneChunk [] (some "m-x") 0 none).1
    ["ok"] { clientFresh with available_models := some ["m-x"] }
    [NetCall.version, NetCall.tags,
     NetCall.generate (buildPayload "m-x" (formatMessagesForOllama []) 0 none)]
    (by decide)

/-- No empty increment is produced for one decoded line. -/
theorem lineChunk_no_empty (resp : Option String) : "" ∉ lineChunk resp := by
  cases resp with
  | none => simp [lineChunk]
  | some s =>
    by_cases hs : s = ""
    · simp [lineChunk, hs]
    · simp [lineChunk, hs, eq_comm]

/-- The line loop never yields an empty increment. -/
theorem processLines_ok_no_empty : ∀ (lines : List GenLine) (chunks : List String),
    processLines lines = .ok chunks → "" ∉ chunks := by
  intro lines
  induction lines with
  | nil =>
    intro chunks h
    simp only [processLines] at h
    injection h with h2
    subst h2
    simp
  | cons l rest ih =>
    intro chunks h
    cases l with
    | blank => exact ih chunks h
    | malformed => exact ih chunks h
    | obj err resp done =>
      simp only [processLines] at h
      by_cases he : optStrTruthy err = true
      · rw [if_pos he] at h
        exact absurd h (by simp)
      · rw [if_neg he] at h
        by_cases hd : done = true
        · rw [if_pos hd] at h
          injection h with h2
          subst h2
          exact lineChunk_no_empty resp
        · rw [if_neg hd] at h
          rcases hrest : processLines rest with e | more
          · rw [hrest] at h
            exact absurd h (by simp)
          · rw [hrest] at h
            injection h with h2
            subst h2
            intro hmem
            rcases List.mem_append.mp hmem with h1 | h2
            · exact lineChunk_no_empty resp h1
            · exact ih more hrest h2

/-- The generate stage never yields an empty increment. -/
theorem streamChunksFromReply_ok_no_empty (reply : GenReply) (model : String)
    (chunks : List String) (h : streamChunksFromReply reply model = .ok chunks) :
    "" ∉ chunks := by
  cases reply with
  | timeout => exact absurd h (by simp [streamChunksFromReply])
  | netError msg => exact absurd h (by simp [streamChunksFromReply])
  | stream status body lines =>
    simp only [streamChunksFromReply] at h
    by_cases hs : status ≠ 200
    · rw [if_pos hs] at h
      exact absurd h (by simp)
    · rw [if_neg hs] at h
      exact processLines_ok_no_empty lines chunks h

/-- Lines after the first `done: true` object are never consumed. -/
theorem processLines_stops_at_done (pre : List GenLine) (resp : Option String)
    (rest : List GenLine) :
    processLines (pre ++ GenLine.obj none resp true :: rest)
      = processLines (pre ++ [GenLine.obj none resp true]) := by
  induction pre with
  | nil => simp [processLines, optStrTruthy]
  | cons l pre ih =>
    cases l with
    | blank => simpa [processLines] using ih
    | malformed => simpa [processLines] using ih
    | obj e r d =>
      simp only [List.cons_append, processLines, List.append_eq]
      rw [ih]

/-- C9: every increment yielded by `generate_streaming_response` is a
non-empty string, and the line loop stops at the first `done: true`
object (later lines never contribute). -/
theorem stream_increments_nonempty_and_stop_at_done
    (c : OllamaClient) (srv : Server) (messages : List ChatMessage)
    (model_name : Option String) (temperature : Int) (max_tokens : Option Int)
    (pre rest : List GenLine) (resp : Option String) :
    (∀ chunks c2 calls,
        c.generate_streaming_response srv messages model_name temperature max_tokens
          = (.ok chunks, c2, calls) → "" ∉ chunks)
      ∧ processLines (pre ++ GenLine.obj none resp true :: rest)
          = processLines (pre ++ [GenLine.obj none resp true]) := by
  refine ⟨?_, processLines_stops_at_done pre resp rest⟩
  intro chunks c2 calls h
  simp only [OllamaClient.generate_streaming_response] at h
  split at h
  · exact absurd h (by simp)
  · split at h
    · exact absurd h (by simp)
    · split at h
      · rename_i chunks2 hchunks
        simp only [Prod.mk.injEq] at h
        obtain ⟨h1, h2, h3⟩ := h
        injection h1 with h1
        subst h1
        exact streamChunksFromReply_ok_no_empty srv.gen _ _ hchunks
      · exact absurd h (by simp)

/-- Witness for the C9 theorem: a concrete successful stream yields the
non-empty chunk list `["ok"]`, and a concrete trailing line after
`done` is dropped. -/
theorem stream_increments_witness :
    "" ∉ (["ok"] : List String)
      ∧ processLines
            [GenLine.obj none (some "a") true, GenLine.obj none (some "junk") false]
          = processLines [GenLine.obj none (some "a") true] :=
  ⟨(stream_increments_nonempty_and_stop_at_done clientFresh srvOneChunk []
      (some "m-x") 0 none [] [GenLine.obj none (some "junk") false] (some "a")).1
      ["ok"] { clientFresh with available_models := some ["m-x"] }
      [NetCall.version, NetCall.tags,
       NetCall.generate (buildPayload "m-x" (formatMessagesForOllama []) 0 none)]
      (by decide),
    (stream_increments_nonempty_and_stop_at_done clientFresh srvOneChunk []
      (some "m-x") 0 none [] [GenLine.obj none (some "junk") false] (some "a")).2⟩

/-- An availability check issues at most the tags call, never a generate
call. -/
theorem ensure_calls_shape (c : OllamaClient) (srv : Server) (name : String) :
    (c.ensure_model_available srv name).2.2 = []
      ∨ (c.ensure_model_available srv name).2.2 = [NetCall.tags] := by
  obtain ⟨re, tags, gen⟩ := srv
  simp only [OllamaClient.ensure_model_available]
  split
  · cases tags <;>
      · simp only [OllamaClient.list_models, ensureFinish]
        first
        | (split <;> simp)
        | simp
  · simp only [ensureFinish]
    split <;> simp

/-- C10 counterexample: a caller-provided `max_tokens = 0` is not
forwarded: the payload actually sent carries `num_predict = 4096`,
because `max_tokens or 4096` treats `0` as absent. -/
theorem max_tokens_zero_not_forwarded :
    (clientFresh.generate_streaming_response srvOneChunk [] (some "m-x") 0 (some 0)).2.2
        = [NetCall.version, NetCall.tags, NetCall.generate payloadZero]
      ∧ payloadZero.options.num_predict = 4096 := by
  decide

/-- C10 (amended): every payload sent to the generate endpoint has
`stream = true`, stop sequences exactly `["User:", "Human:"]`, the
temperature of the caller, and `num_predict` equal to the given
`max_tokens` when that is provided and non-zero, and `4096` when it is
absent or zero. -/
theorem sent_payload_shape
    (c : OllamaClient) (srv : Server) (messages : List ChatMessage)
    (model_name : Option String) (temperature : Int) (max_tokens : Option Int)
    (p : GenPayload)
    (hp : NetCall.generate p
        ∈ (c.generate_streaming_response srv messages model_name temperature
            max_tokens).2.2) :
    p.stream = true
      ∧ p.options.stop = ["User:", "Human:"]
      ∧ p.options.temperature = temperature
      ∧ (∀ n, max_tokens = some n → n ≠ 0 → p.options.num_predict = n)
      ∧ ((max_tokens = none ∨ max_tokens = some 0) →
          p.options.num_predict = 4096) := by
  have hped : p = buildPayload (effectiveModelName model_name)
      (formatMessagesForOllama messages) temperature max_tokens := by
    simp only [OllamaClient.generate_streaming_response] at hp
    split at hp
    · simp [OllamaClient.check_connection] at hp
    · split at hp
      · rename_i e c2 tagCalls hens
        have h0 := ensure_calls_shape c srv (effectiveModelName model_name)
        rw [hens] at h0
        simp only at h0
        rcases h0 with h0 | h0 <;> rw [h0] at hp <;>
          simp [OllamaClient.check_connection] at hp
      · rename_i v c2 tagCalls hens
        have h0 := ensure_calls_shape c srv (effectiveModelName model_name)
        rw [hens] at h0
        simp only at h0
        split at hp <;>
          rcases h0 with h0 | h0 <;> rw [h0] at hp <;>
            simp [OllamaClient.check_connection] at hp <;> exact hp
  subst hped
  refine ⟨rfl, rfl, rfl, ?_, ?_⟩
  · intro n hn hn0
    subst hn
    simp [buildPayload, hn0]
  · rintro (rfl | rfl) <;> simp [buildPayload]

/-- Witness for the amended C10 theorem: the payload of a concrete call
with `max_tokens = 7`. -/
theorem sent_payload_shape_witness :
    payloadSeven.stream = true
      ∧ payloadSeven.options.stop = ["User:", "Human:"]
      ∧ payloadSeven.options.num_predict = 7 := by
  have h := sent_payload_shape clientFresh srvOneChunk [] (some "m-x") 0 (some 7)
    payloadSeven (by decide)
  exact ⟨h.1, h.2.1, h.2.2.2.1 7 rfl (by decide)⟩

/-- Each `_stream_*` helper emits a status followed by exactly one
terminal event, which is last. -/
theorem streamHelper_events (sm fm key : String)
    (r : Except OllamaError String × OllamaClient × List NetCall) :
    ((streamHelper sm fm key r).1.filter WsEvent.isTerminal).length = 1
      ∧ ∃ t, (streamHelper sm fm key r).1.getLast? = some t
          ∧ t.isTerminal = true := by
  obtain ⟨res, c2, calls⟩ := r
  cases res <;> simp [streamHelper, WsEvent.isTerminal]

/-- Every dispatched request produces exactly one terminal event, and it
is the last event for that request. -/
theorem handleWsRequest_events (c : OllamaClient) (srv : Server) (req : WsRequest) :
    ((handleWsRequest c srv req).1.filter WsEvent.isTerminal).length = 1
      ∧ ∃ t, (handleWsRequest c srv req).1.getLast? = some t
          ∧ t.isTerminal = true := by
  cases req with
  | html d a m => exact streamHelper_events _ _ _ _
  | css d e m => exact streamHelper_events _ _ _ _
  | react d props m => exact streamHelper_events _ _ _ _
  | enhance ex rq m => exact streamHelper_events _ _ _ _
  | fix code issues m => exact streamHelper_events _ _ _ _
  | unknown t => simp [handleWsRequest, WsEvent.isTerminal]

/-- The connection loop handles every received request. -/
theorem websocketLoop_length (reqs : List (WsRequest × Server)) :
    ∀ c : OllamaClient, (websocketLoop c reqs).length = reqs.length := by
  induction reqs with
  | nil => intro c; rfl
  | cons p rest ih =>
    intro c
    simp [websocketLoop, ih]

/-- C6: for every request accepted on the websocket connection, the
multiplexer emits exactly one terminal event (`complete` or `error`),
that terminal event is the last event for the request, and the loop
continues to handle every subsequent request on the same connection — a
failed or unrecognized request does not terminate the connection. -/
theorem ws_one_terminal_then_reopen
    (c : OllamaClient) (srv : Server) (req : WsRequest)
    (rest : List (WsRequest × Server)) :
    ((handleWsRequest c srv req).1.filter WsEvent.isTerminal).length = 1
      ∧ (∃ t, (handleWsRequest c srv req).1.getLast? = some t
          ∧ t.isTerminal = true)
      ∧ (websocketLoop c ((req, srv) :: rest)).length = rest.length + 1 := by
  refine ⟨(handleWsRequest_events c srv req).1,
    (handleWsRequest_events c srv req).2, ?_⟩
  simp [websocketLoop, websocketLoop_length]

end WebsiteBuilder
